import Mathlib

/-
Verification of the adm-allo-player audio playback engine.

Shallow embedding of the core of the repository:
  - src/channelMapping.hpp : the static file-channel -> device-channel table and
    its lookup helpers (getOutputChannel / getInputChannel).
  - src/mainplayer.hpp : the adm_player streaming render engine (loadAudioFile,
    loadAudioChunk, onSound) with chunked streaming, loop / end-of-stream
    handling, channel-scattering and per-channel metering.
  - src/54ChanPlayer/mainplayer.cpp : the legacy whole-file variant; only its
    metering indexing (maxLevels keyed by file channel) differs from the
    streaming variant and is embedded separately.

Modelling conventions:
  - C++ float samples are modelled as exact rationals (Rat); float rounding is
    abstracted away.
  - uint64_t frame arithmetic is modelled as Nat.  All subtractions in the
    embedded code are guarded by the same conditionals as the source, under
    which C++ unsigned subtraction and Nat subtraction agree (no wraparound
    occurs on the states the theorems quantify over).
  - std::vector buffers are modelled as total functions; reads the C++ code
    never performs (out of the written range) are undefined behaviour in the
    source and get an arbitrary-but-fixed value in the model.
  - the int channel indices of channelMapping.hpp are non-negative literals in
    the source; the table is stored with Nat entries and the lookup helpers
    cast to Int, matching the C++ int comparisons and the -1 sentinel.
-/

namespace AdmPlayer

/-- Embeds constexpr int NUM_CHANNELS = 55 from src/channelMapping.hpp. -/
def NUM_CHANNELS : Nat := 55

/-- Embeds ChannelMapping::defaultChannelMap (0-indexed) from
src/channelMapping.hpp lines 35-98: 55 pairs {audioFileChannel, allosphereOutputChannel}. -/
def defaultChannelMap : List (Nat × Nat) :=
  [ (0, 0), (1, 1), (2, 2), (3, 3), (4, 4), (5, 5), (6, 6), (7, 7),
    (8, 8), (9, 9), (10, 10), (11, 11),
    (12, 16), (13, 17), (14, 18), (15, 19), (16, 20), (17, 21), (18, 22),
    (19, 23), (20, 24), (21, 25), (22, 26), (23, 27), (24, 28), (25, 29),
    (26, 30), (27, 31), (28, 32), (29, 33), (30, 34), (31, 35), (32, 36),
    (33, 37), (34, 38), (35, 39), (36, 40), (37, 41), (38, 42), (39, 43),
    (40, 44), (41, 45),
    (42, 48), (43, 49), (44, 50), (45, 51), (46, 52), (47, 53), (48, 54),
    (49, 55), (50, 56), (51, 57), (52, 58), (53, 59),
    (55, 47) ]

/-- Embeds ChannelMapping::getOutputChannel: first-match linear scan over
defaultChannelMap on the first component; pass-through default when no entry
matches (src/channelMapping.hpp lines 178-185). -/
def getOutputChannel (audioFileChannel : Int) : Int :=
  match defaultChannelMap.find? (fun m => (m.1 : Int) == audioFileChannel) with
  | some m => (m.2 : Int)
  | none => audioFileChannel

/-- Embeds ChannelMapping::getInputChannel: first-match linear scan over
defaultChannelMap on the second component; -1 sentinel when no entry matches
(src/channelMapping.hpp lines 188-195). -/
def getInputChannel (allosphereChannel : Int) : Int :=
  match defaultChannelMap.find? (fun m => (m.2 : Int) == allosphereChannel) with
  | some m => (m.1 : Int)
  | none => -1

/-- Embeds float meterDecayRate = 0.95f from src/mainplayer.hpp line 51 (a
member that is initialized once and never reassigned). -/
def meterDecayRate : Rat := 0.95

/-- Embeds int peakHoldFrames = 24 from src/mainplayer.hpp line 49 (initialized
once and never reassigned). -/
def peakHoldFrames : Int := 24

/-- State of the adm_player struct (src/mainplayer.hpp lines 23-56) restricted
to the members the render/load paths read or write.  fileOpened and fileFrames
model soundFile.opened() and soundFile.frames(); fileFlat models the opened
interleaved sample stream of the file as exposed by the external decoder (seek+read
returns fileFlat at the seek offset, in samples).  Vectors are modelled as
total functions (sizes are not tracked; indices the C++ code reads are always
in range on the states the theorems quantify over). -/
structure PlayerState where
  fileOpened : Bool
  fileFrames : Nat
  fileFlat : Nat → Rat
  frameCounter : Nat
  playing : Bool
  loop : Bool
  gain : Rat
  streamingMode : Bool
  chunkSize : Nat
  audioData : Nat → Rat
  currentChunkStart : Nat
  currentChunkFrames : Nat
  numChannels : Nat
  channelLevels : Nat → Rat
  channelPeaks : Nat → Rat
  peakHoldCounters : Nat → Int

/-- Embeds adm_player::loadAudioChunk (src/mainplayer.hpp lines 155-181): seek
to chunkStartFrame and read a chunk of chunkSize frames, clamped so the read
never goes past soundFile.frames(); replace audioData and update the resident
chunk bounds.  The guarding conditional makes the Nat subtraction agree with
the uint64_t subtraction whenever chunkStartFrame <= fileFrames. -/
def loadAudioChunk (s : PlayerState) (chunkStartFrame : Nat) : PlayerState :=
  if s.streamingMode = false then s
  else
    let chunkFrames := s.chunkSize
    let chunkFrames := if chunkStartFrame + chunkFrames > s.fileFrames
                       then s.fileFrames - chunkStartFrame else chunkFrames
    { s with
      audioData := fun i =>
        if i < chunkFrames * s.numChannels
        then s.fileFlat (chunkStartFrame * s.numChannels + i)
        else s.audioData i,
      currentChunkStart := chunkStartFrame,
      currentChunkFrames := chunkFrames }

/-- Embeds adm_player::loadAudioFile (src/mainplayer.hpp lines 95-153).  The
external soundFile.openRead call is modelled by the openResult parameter:
none means the open failed, some info means it succeeded and the sound file
now reports info.  On failure the C++ function returns false immediately,
after having saved wasPlaying and forced playing to false.  On success it
loads the first chunk (streaming mode), resets frameCounter, resizes the
meter vectors (a no-op in the size-free model) and restores playing.
numChannels is not updated from the file (the source never assigns it here). -/
structure OpenInfo where
  frames : Nat
  flat : Nat → Rat

def loadAudioFile (s : PlayerState) (openResult : Option OpenInfo) : Bool × PlayerState :=
  let wasPlaying := s.playing
  let s1 := { s with playing := false }
  match openResult with
  | none => (false, s1)
  | some info =>
      let s2 := { s1 with fileOpened := true, fileFrames := info.frames,
                          fileFlat := info.flat }
      let s3 := if s2.streamingMode then loadAudioChunk s2 0 else s2
      let s4 := { s3 with frameCounter := 0 }
      (true, { s4 with playing := wasPlaying })

/-- The mapping entries the render loop iterates over: the C++ loop runs
for i < ChannelMapping::NUM_CHANNELS && i < numChannels
(src/mainplayer.hpp line 475). -/
def channelMapTake (numChannels : Nat) : List (Nat × Nat) :=
  defaultChannelMap.take (min NUM_CHANNELS numChannels)

/-- One iteration of the inner mapping loop as it affects the device output
buffer for one frame (src/mainplayer.hpp lines 475-483): with the bounds check
passed, write buffer[frame*numChannels+fileChannel] * gain to
io.out(outputChannel, frame). -/
def writeStep (numCh D : Nat) (gain : Rat) (buffer : Nat → Rat) (frame : Nat)
    (out : Nat → Rat) (e : Nat × Nat) : Nat → Rat :=
  if e.1 < numCh ∧ e.2 < D then
    fun ch => if ch = e.2 then buffer (frame * numCh + e.1) * gain else out ch
  else out

/-- The device output of one produced frame: all io.channelsOut() outputs are
cleared to zero first, then the mapping entries are applied in order
(src/mainplayer.hpp lines 468-490). -/
def frameOut (numCh D : Nat) (gain : Rat) (buffer : Nat → Rat) (frame : Nat) :
    Nat → Rat :=
  (channelMapTake numCh).foldl (writeStep numCh D gain buffer frame) (fun _ => 0)

/-- One iteration of the inner mapping loop as it affects the maxLevels vector
(src/mainplayer.hpp lines 484-488): absSample = fabsf(sample); if it exceeds
maxLevels[outputChannel], store it there.  The streaming variant keys the
update by the output channel of the entry. -/
def mlStep (numCh D : Nat) (gain : Rat) (buffer : Nat → Rat) (frame : Nat)
    (ml : Nat → Rat) (e : Nat × Nat) : Nat → Rat :=
  if e.1 < numCh ∧ e.2 < D then
    let absSample := |buffer (frame * numCh + e.1) * gain|
    fun ch => if ch = e.2 then (if absSample > ml ch then absSample else ml ch)
              else ml ch
  else ml

/-- The maxLevels vector after the double loop over frames and mapping entries
in the streaming variant (src/mainplayer.hpp lines 468-491), starting from the
freshly zero-initialized std::vector of size io.channelsOut().  The C++ code
interleaves the io.out writes and the maxLevels updates in a single loop; the
two touch disjoint state, so they are embedded as two folds over the same
index ranges. -/
def maxLevels (numCh D numFrames : Nat) (gain : Rat) (buffer : Nat → Rat) :
    Nat → Rat :=
  (List.range numFrames).foldl
    (fun ml frame => (channelMapTake numCh).foldl (mlStep numCh D gain buffer frame) ml)
    (fun _ => 0)

/-- One iteration of the inner mapping loop of the 54ChanPlayer variant as it
affects maxLevels (src/54ChanPlayer/mainplayer.cpp lines 286-290): identical
to mlStep except that the update is keyed by the FILE channel of the entry
(maxLevels[fileChannel]). -/
def mlStepByFile (numCh D : Nat) (gain : Rat) (buffer : Nat → Rat) (frame : Nat)
    (ml : Nat → Rat) (e : Nat × Nat) : Nat → Rat :=
  if e.1 < numCh ∧ e.2 < D then
    let absSample := |buffer (frame * numCh + e.1) * gain|
    fun ch => if ch = e.1 then (if absSample > ml ch then absSample else ml ch)
              else ml ch
  else ml

/-- The maxLevels vector of the 54ChanPlayer variant
(src/54ChanPlayer/mainplayer.cpp lines 268-293), zero-initialized with size
numChannels and updated at the file-channel index. -/
def maxLevelsByFileChannel (numCh D numFrames : Nat) (gain : Rat)
    (buffer : Nat → Rat) : Nat → Rat :=
  (List.range numFrames).foldl
    (fun ml frame => (channelMapTake numCh).foldl (mlStepByFile numCh D gain buffer frame) ml)
    (fun _ => 0)

/-- Embeds the channelLevels update of the meter loop (src/mainplayer.hpp
lines 494-501): decay the level by decayRate, then replace it with the block
maximum if that is higher. -/
def levelUpdate (decayRate level maxLevel : Rat) : Rat :=
  let l := level * decayRate
  if maxLevel > l then maxLevel else l

/-- Embeds the full meter-update loop over ch < io.channelsOut()
(src/mainplayer.hpp lines 493-515): channelLevels decay-or-jump, peak hold
with counter, geometric peak decay once the counter has run out. -/
def updateMeters (s : PlayerState) (D : Nat) (ml : Nat → Rat) : PlayerState :=
  { s with
    channelLevels := fun ch =>
      if ch < D then levelUpdate meterDecayRate (s.channelLevels ch) (ml ch)
      else s.channelLevels ch,
    channelPeaks := fun ch =>
      if ch < D then
        (if ml ch > s.channelPeaks ch then ml ch
         else if s.peakHoldCounters ch > 0 then s.channelPeaks ch
         else s.channelPeaks ch * meterDecayRate)
      else s.channelPeaks ch,
    peakHoldCounters := fun ch =>
      if ch < D then
        (if ml ch > s.channelPeaks ch then peakHoldFrames
         else if s.peakHoldCounters ch > 0 then s.peakHoldCounters ch - 1
         else s.peakHoldCounters ch)
      else s.peakHoldCounters ch }

/-- Embeds the numFrames clamp of adm_player::onSound (src/mainplayer.hpp
lines 434-437): numFrames starts as io.framesPerBuffer() and is truncated to
the remaining frames when the cursor is near the end.  The guard makes the
Nat subtraction agree with uint64_t on every state with
frameCounter <= fileFrames. -/
def numFramesClamped (s : PlayerState) (fpb : Nat) : Nat :=
  if s.frameCounter + fpb > s.fileFrames then s.fileFrames - s.frameCounter else fpb

/-- Embeds the chunk-reload check of adm_player::onSound (src/mainplayer.hpp
lines 439-445): in streaming mode, if the nominal chunk start of the cursor
floor(frameCounter / chunkSize) * chunkSize differs from the resident chunk
start, reload that chunk. -/
def chunkCheck (s : PlayerState) : PlayerState :=
  if s.streamingMode then
    (if s.frameCounter / s.chunkSize * s.chunkSize ≠ s.currentChunkStart
     then loadAudioChunk s (s.frameCounter / s.chunkSize * s.chunkSize) else s)
  else s

/-- Embeds the frame-pointer/buffer-copy step of adm_player::onSound
(src/mainplayer.hpp lines 447-462): in streaming mode the render loop reads
audioData starting at the chunk-local offset
(frameCounter - currentChunkStart) * numChannels; otherwise it seeks and reads
the file directly at frameCounter.  The intermediate copy into the member
buffer is the identity on the values the render loop reads. -/
def renderBuffer (s : PlayerState) : Nat → Rat :=
  if s.streamingMode then
    fun i => s.audioData ((s.frameCounter - s.currentChunkStart) * s.numChannels + i)
  else
    fun i => s.fileFlat (s.frameCounter * s.numChannels + i)

/-- The body of adm_player::onSound past the not-at-end checks
(src/mainplayer.hpp lines 434-524): clamp numFrames to the remaining frames,
reload the resident chunk if needed, scatter the chunk samples through the
channel map with gain, update the meters, zero-fill the trailing frames and
advance the cursor.  The output is the device buffer as a function
(channel, frame) -> sample; frames at or past numFrames are the zero-filled
tail. -/
def renderBody (s : PlayerState) (fpb D : Nat) : PlayerState × (Nat → Nat → Rat) :=
  let numFrames := numFramesClamped s fpb
  let s1 := chunkCheck s
  let buffer := renderBuffer s1
  let out : Nat → Nat → Rat := fun ch frame =>
    if frame < numFrames then frameOut s1.numChannels D s1.gain buffer frame ch else 0
  let ml := maxLevels s1.numChannels D numFrames s1.gain buffer
  let s2 := updateMeters s1 D ml
  ({ s2 with frameCounter := s2.frameCounter + numFrames }, out)

/-- Embeds adm_player::onSound (src/mainplayer.hpp lines 390-525).  fpb models
io.framesPerBuffer() and D models io.channelsOut().  Control flow: no file
or not playing emits silence; at end of stream with loop the cursor wraps to
zero and rendering continues, without loop playing becomes false and silence
is emitted; otherwise the render body runs.  (The buffer resize at lines
404-407 is a no-op in the size-free model.) -/
def onSound (s : PlayerState) (fpb D : Nat) : PlayerState × (Nat → Nat → Rat) :=
  if s.fileOpened = false then (s, fun _ _ => 0)
  else if s.playing = false then (s, fun _ _ => 0)
  else if s.frameCounter ≥ s.fileFrames then
    (if s.loop then renderBody { s with frameCounter := 0 } fpb D
     else ({ s with playing := false }, fun _ _ => 0))
  else renderBody s fpb D

/-- Modelled from the words of claim C5 in the spec: the block-peak magnitude of device
output channel ch, i.e. the maximum absolute value over the produced frames of
the samples written to that output channel. -/
def specBlockPeak (numFrames : Nat) (out : Nat → Nat → Rat) (ch : Nat) : Rat :=
  (List.range numFrames).foldl (fun m f => max m |out ch f|) 0

/-- Concrete player state used by the claim C1 theorems: the scenario given by the claim itself — loop enabled, frameCount 1000, cursor 900, one file channel, the
whole file resident as chunk 0, unit gain, and file sample value i + 1 at
frame i (so every file position is distinguishable from silence). -/
def c1State : PlayerState := {
  fileOpened := true, fileFrames := 1000, fileFlat := fun i => (i : Rat) + 1,
  frameCounter := 900, playing := true, loop := true, gain := 1,
  streamingMode := true, chunkSize := 2880000,
  audioData := fun i => (i : Rat) + 1,
  currentChunkStart := 0, currentChunkFrames := 1000, numChannels := 1,
  channelLevels := fun _ => 0, channelPeaks := fun _ => 0,
  peakHoldCounters := fun _ => 0 }

/-- Concrete player state used by the claim C2 witness: a 56-channel asset of
4096 frames at cursor 0, resident chunk covering the whole file. -/
def c2State : PlayerState := {
  fileOpened := true, fileFrames := 4096, fileFlat := fun _ => 0,
  frameCounter := 0, playing := true, loop := true, gain := 1,
  streamingMode := true, chunkSize := 2880000, audioData := fun _ => 0,
  currentChunkStart := 0, currentChunkFrames := 4096, numChannels := 56,
  channelLevels := fun _ => 0, channelPeaks := fun _ => 0,
  peakHoldCounters := fun _ => 0 }

/-- Concrete player state used by the claim C3 theorems: a player with an
open 1000-frame asset, mid-file cursor, playing = true. -/
def c3State : PlayerState := {
  fileOpened := true, fileFrames := 1000, fileFlat := fun _ => 0,
  frameCounter := 44, playing := true, loop := true, gain := 1,
  streamingMode := true, chunkSize := 2880000, audioData := fun _ => 0,
  currentChunkStart := 0, currentChunkFrames := 1000, numChannels := 2,
  channelLevels := fun _ => 0, channelPeaks := fun _ => 0,
  peakHoldCounters := fun _ => 0 }

/-- Concrete player state used by the claim C5 witness: a 1-channel asset of
10 frames of constant unit samples, cursor 0. -/
def c5State : PlayerState := {
  fileOpened := true, fileFrames := 10, fileFlat := fun _ => 1,
  frameCounter := 0, playing := true, loop := true, gain := 1,
  streamingMode := true, chunkSize := 2880000, audioData := fun _ => 1,
  currentChunkStart := 0, currentChunkFrames := 10, numChannels := 1,
  channelLevels := fun _ => 0, channelPeaks := fun _ => 0,
  peakHoldCounters := fun _ => 0 }

/-- Concrete player state used by the claim C6 theorems: loop disabled,
cursor at end of the 1000-frame file, still marked playing. -/
def c6State : PlayerState := {
  fileOpened := true, fileFrames := 1000, fileFlat := fun _ => 0,
  frameCounter := 1000, playing := true, loop := false, gain := 1,
  streamingMode := true, chunkSize := 2880000, audioData := fun _ => 0,
  currentChunkStart := 0, currentChunkFrames := 1000, numChannels := 2,
  channelLevels := fun _ => 0, channelPeaks := fun _ => 0,
  peakHoldCounters := fun _ => 0 }

/-- Concrete player state used by the claim C8 witness: 100-frame file,
10-frame chunks, resident chunk [0, 10), cursor at 25 (outside the chunk). -/
def c8State : PlayerState := {
  fileOpened := true, fileFrames := 100, fileFlat := fun _ => 0,
  frameCounter := 25, playing := true, loop := true, gain := 1,
  streamingMode := true, chunkSize := 10, audioData := fun _ => 0,
  currentChunkStart := 0, currentChunkFrames := 10, numChannels := 1,
  channelLevels := fun _ => 0, channelPeaks := fun _ => 0,
  peakHoldCounters := fun _ => 0 }

/-
Helper lemmas shared by the claim theorems.
-/

theorem loadAudioChunk_preserves (s : PlayerState) (c : Nat) :
    (loadAudioChunk s c).numChannels = s.numChannels
    ∧ (loadAudioChunk s c).gain = s.gain
    ∧ (loadAudioChunk s c).frameCounter = s.frameCounter
    ∧ (loadAudioChunk s c).channelLevels = s.channelLevels
    ∧ (loadAudioChunk s c).playing = s.playing
    ∧ (loadAudioChunk s c).fileFrames = s.fileFrames := by
  unfold loadAudioChunk
  split
  · exact ⟨rfl, rfl, rfl, rfl, rfl, rfl⟩
  · exact ⟨rfl, rfl, rfl, rfl, rfl, rfl⟩

theorem chunkCheck_preserves (s : PlayerState) :
    (chunkCheck s).numChannels = s.numChannels
    ∧ (chunkCheck s).gain = s.gain
    ∧ (chunkCheck s).frameCounter = s.frameCounter
    ∧ (chunkCheck s).channelLevels = s.channelLevels
    ∧ (chunkCheck s).playing = s.playing
    ∧ (chunkCheck s).fileFrames = s.fileFrames := by
  unfold chunkCheck
  split
  · split
    · exact loadAudioChunk_preserves s _
    · exact ⟨rfl, rfl, rfl, rfl, rfl, rfl⟩
  · exact ⟨rfl, rfl, rfl, rfl, rfl, rfl⟩

theorem onSound_eq_renderBody (s : PlayerState) (fpb D : Nat)
    (hopen : s.fileOpened = true) (hplay : s.playing = true)
    (hfc : s.frameCounter < s.fileFrames) :
    onSound s fpb D = renderBody s fpb D := by
  unfold onSound
  simp [hopen, hplay, Nat.not_le.mpr hfc]

theorem onSound_eq_wrap (s : PlayerState) (fpb D : Nat)
    (hopen : s.fileOpened = true) (hplay : s.playing = true)
    (hloop : s.loop = true) (hend : s.frameCounter ≥ s.fileFrames) :
    onSound s fpb D = renderBody { s with frameCounter := 0 } fpb D := by
  unfold onSound
  simp [hopen, hplay, hloop, hend]

theorem renderBody_snd (s : PlayerState) (fpb D : Nat) :
    (renderBody s fpb D).2 = fun ch frame =>
      if frame < numFramesClamped s fpb
      then frameOut (chunkCheck s).numChannels D (chunkCheck s).gain
             (renderBuffer (chunkCheck s)) frame ch
      else 0 := rfl

theorem renderBody_fst_channelLevels (s : PlayerState) (fpb D ch : Nat)
    (hch : ch < D) :
    (renderBody s fpb D).1.channelLevels ch
      = levelUpdate meterDecayRate ((chunkCheck s).channelLevels ch)
          (maxLevels (chunkCheck s).numChannels D (numFramesClamped s fpb)
            (chunkCheck s).gain (renderBuffer (chunkCheck s)) ch) := by
  show (updateMeters (chunkCheck s) D _).channelLevels ch = _
  unfold updateMeters
  simp [hch]

theorem numFramesClamped_le (s : PlayerState) (fpb : Nat) :
    numFramesClamped s fpb ≤ fpb := by
  unfold numFramesClamped
  split <;> omega

theorem foldl_writeStep_skip {numCh D : Nat} {gain : Rat} {buffer : Nat → Rat}
    {frame ch : Nat} (l : List (Nat × Nat)) (init : Nat → Rat)
    (h : ∀ e ∈ l, ¬((e.1 < numCh ∧ e.2 < D) ∧ e.2 = ch)) :
    (l.foldl (writeStep numCh D gain buffer frame) init) ch = init ch := by
  induction l generalizing init with
  | nil => rfl
  | cons e t ih =>
      rw [List.foldl_cons, ih _ (fun x hx => h x (List.mem_cons_of_mem _ hx))]
      have he := h e (List.mem_cons_self _ _)
      unfold writeStep
      by_cases happ : e.1 < numCh ∧ e.2 < D
      · rw [if_pos happ]
        have hne : ch ≠ e.2 := fun hc => he ⟨happ, hc.symm⟩
        simp [hne]
      · rw [if_neg happ]

theorem frameOut_unmapped {numCh D : Nat} {gain : Rat} {buffer : Nat → Rat}
    {frame ch : Nat}
    (h : ∀ e ∈ channelMapTake numCh, ¬((e.1 < numCh ∧ e.2 < D) ∧ e.2 = ch)) :
    frameOut numCh D gain buffer frame ch = 0 :=
  foldl_writeStep_skip _ _ h

theorem foldl_writeStep_last {numCh D : Nat} {gain : Rat} {buffer : Nat → Rat}
    {frame ch : Nat} (l1 l2 : List (Nat × Nat)) (e0 : Nat × Nat) (init : Nat → Rat)
    (happ : e0.1 < numCh ∧ e0.2 < D) (hch : e0.2 = ch)
    (h2 : ∀ e ∈ l2, ¬((e.1 < numCh ∧ e.2 < D) ∧ e.2 = ch)) :
    ((l1 ++ e0 :: l2).foldl (writeStep numCh D gain buffer frame) init) ch
      = buffer (frame * numCh + e0.1) * gain := by
  rw [List.foldl_append, List.foldl_cons, foldl_writeStep_skip l2 _ h2]
  unfold writeStep
  rw [if_pos happ]
  simp [hch]

theorem foldl_mlStep_skip {numCh D : Nat} {gain : Rat} {buffer : Nat → Rat}
    {frame ch : Nat} (l : List (Nat × Nat)) (ml : Nat → Rat)
    (h : ∀ e ∈ l, ¬((e.1 < numCh ∧ e.2 < D) ∧ e.2 = ch)) :
    (l.foldl (mlStep numCh D gain buffer frame) ml) ch = ml ch := by
  induction l generalizing ml with
  | nil => rfl
  | cons e t ih =>
      rw [List.foldl_cons, ih _ (fun x hx => h x (List.mem_cons_of_mem _ hx))]
      have he := h e (List.mem_cons_self _ _)
      unfold mlStep
      by_cases happ : e.1 < numCh ∧ e.2 < D
      · rw [if_pos happ]
        have hne : ch ≠ e.2 := fun hc => he ⟨happ, hc.symm⟩
        simp [hne]
      · rw [if_neg happ]

theorem foldl_mlStepByFile_skip {numCh D : Nat} {gain : Rat} {buffer : Nat → Rat}
    {frame ch : Nat} (l : List (Nat × Nat)) (ml : Nat → Rat)
    (h : ∀ e ∈ l, ¬((e.1 < numCh ∧ e.2 < D) ∧ e.1 = ch)) :
    (l.foldl (mlStepByFile numCh D gain buffer frame) ml) ch = ml ch := by
  induction l generalizing ml with
  | nil => rfl
  | cons e t ih =>
      rw [List.foldl_cons, ih _ (fun x hx => h x (List.mem_cons_of_mem _ hx))]
      have he := h e (List.mem_cons_self _ _)
      unfold mlStepByFile
      by_cases happ : e.1 < numCh ∧ e.2 < D
      · rw [if_pos happ]
        have hne : ch ≠ e.1 := fun hc => he ⟨happ, hc.symm⟩
        simp [hne]
      · rw [if_neg happ]

theorem if_gt_eq_max (m a : Rat) : (if a > m then a else m) = max m a := by
  rcases le_or_lt a m with h | h
  · rw [if_neg (not_lt.mpr h), max_eq_left h]
  · rw [if_pos h, max_eq_right h.le]

theorem mlStep_writer {numCh D : Nat} {gain : Rat} {buffer : Nat → Rat}
    {frame ch : Nat} (X : Nat → Rat) (e0 : Nat × Nat)
    (happ : e0.1 < numCh ∧ e0.2 < D) (hch : e0.2 = ch) :
    (mlStep numCh D gain buffer frame X e0) ch
      = max (X ch) |buffer (frame * numCh + e0.1) * gain| := by
  unfold mlStep
  rw [if_pos happ]
  rw [if_pos hch.symm, if_gt_eq_max]

theorem foldl_mlStep_single {numCh D : Nat} {gain : Rat} {buffer : Nat → Rat}
    {frame ch : Nat} (l1 l2 : List (Nat × Nat)) (e0 : Nat × Nat) (ml : Nat → Rat)
    (happ : e0.1 < numCh ∧ e0.2 < D) (hch : e0.2 = ch)
    (h1 : ∀ e ∈ l1, ¬((e.1 < numCh ∧ e.2 < D) ∧ e.2 = ch))
    (h2 : ∀ e ∈ l2, ¬((e.1 < numCh ∧ e.2 < D) ∧ e.2 = ch)) :
    ((l1 ++ e0 :: l2).foldl (mlStep numCh D gain buffer frame) ml) ch
      = max (ml ch) |buffer (frame * numCh + e0.1) * gain| := by
  rw [List.foldl_append, List.foldl_cons, foldl_mlStep_skip l2 _ h2,
    mlStep_writer _ e0 happ hch, foldl_mlStep_skip l1 ml h1]

theorem foldl_apply_comm {α : Type} (l : List α) (F : (Nat → Rat) → α → (Nat → Rat))
    (g : Rat → α → Rat) (ch : Nat)
    (h : ∀ ml a, (F ml a) ch = g (ml ch) a) (ml : Nat → Rat) :
    (l.foldl F ml) ch = l.foldl g (ml ch) := by
  induction l generalizing ml with
  | nil => rfl
  | cons a t ih => rw [List.foldl_cons, List.foldl_cons, ih, h]

theorem foldl_const_acc (l : List Nat) (x : Rat) :
    l.foldl (fun m _ => m) x = x := by
  induction l generalizing x with
  | nil => rfl
  | cons a t ih => rw [List.foldl_cons]; exact ih x

theorem foldl_max_init_le (l : List Nat) (g : Nat → Rat) (m : Rat) :
    m ≤ l.foldl (fun m f => max m |g f|) m := by
  induction l generalizing m with
  | nil => exact le_refl m
  | cons a t ih => exact le_trans (le_max_left m |g a|) (ih _)

theorem foldl_max_zero_list (l : List Nat) (g : Nat → Rat) (m : Rat)
    (hm : 0 ≤ m) (h : ∀ f ∈ l, g f = 0) :
    l.foldl (fun m f => max m |g f|) m = m := by
  induction l generalizing m with
  | nil => rfl
  | cons a t ih =>
      rw [List.foldl_cons, h a (List.mem_cons_self _ _), abs_zero, max_eq_left hm]
      exact ih m hm (fun x hx => h x (List.mem_cons_of_mem _ hx))

theorem foldl_max_tail (g : Nat → Rat) (N K : Nat)
    (hg : ∀ f, N ≤ f → g f = 0) :
    (List.range (N + K)).foldl (fun m f => max m |g f|) 0
      = (List.range N).foldl (fun m f => max m |g f|) 0 := by
  rw [List.range_add, List.foldl_append]
  exact foldl_max_zero_list _ _ _ (foldl_max_init_le _ _ 0)
    (fun f hf => by
      obtain ⟨x, _, rfl⟩ := List.mem_map.mp hf
      exact hg _ (Nat.le_add_right N x))

theorem channelMapTake_snd_nodup (numCh : Nat) :
    ((channelMapTake numCh).map Prod.snd).Nodup := by
  have hbig : (defaultChannelMap.map Prod.snd).Nodup := by decide
  unfold channelMapTake
  rw [List.map_take]
  exact List.Nodup.sublist (List.take_sublist _ _) hbig

theorem specBlockPeak_truncate (out : Nat → Nat → Rat) (ch nf fpb : Nat)
    (hnf : nf ≤ fpb) (hz : ∀ f, nf ≤ f → out ch f = 0) :
    specBlockPeak fpb out ch
      = (List.range nf).foldl (fun m f => max m |out ch f|) 0 := by
  unfold specBlockPeak
  have h : fpb = nf + (fpb - nf) := by omega
  rw [h]
  exact foldl_max_tail (fun f => out ch f) nf (fpb - nf) hz

theorem maxLevels_eq_blockPeak_core (numCh D nf : Nat) (gain : Rat)
    (buffer : Nat → Rat) (ch : Nat) :
    maxLevels numCh D nf gain buffer ch
      = (List.range nf).foldl (fun m f => max m |frameOut numCh D gain buffer f ch|) 0 := by
  by_cases hw : ∃ e ∈ channelMapTake numCh, ((e.1 < numCh ∧ e.2 < D) ∧ e.2 = ch)
  · obtain ⟨e0, he0, happ, hche⟩ := hw
    obtain ⟨l1, l2, hsp⟩ := List.append_of_mem he0
    have hnodup := channelMapTake_snd_nodup numCh
    rw [hsp, List.map_append, List.map_cons, List.nodup_append] at hnodup
    obtain ⟨hn1, hn2, hdisj⟩ := hnodup
    have h1 : ∀ e ∈ l1, ¬((e.1 < numCh ∧ e.2 < D) ∧ e.2 = ch) := by
      intro e he hc
      refine hdisj (List.mem_map_of_mem _ he) ?_
      rw [hc.2, ← hche]
      exact List.mem_cons_self _ _
    have h2 : ∀ e ∈ l2, ¬((e.1 < numCh ∧ e.2 < D) ∧ e.2 = ch) := by
      intro e he hc
      rw [List.nodup_cons] at hn2
      refine absurd ?_ hn2.1
      rw [hche, ← hc.2]
      exact List.mem_map_of_mem _ he
    unfold maxLevels
    rw [hsp]
    rw [foldl_apply_comm (List.range nf)
          (fun ml frame => (l1 ++ e0 :: l2).foldl (mlStep numCh D gain buffer frame) ml)
          (fun m frame => max m |buffer (frame * numCh + e0.1) * gain|) ch
          (fun ml frame => foldl_mlStep_single l1 l2 e0 ml happ hche h1 h2)
          (fun _ => 0)]
    apply List.foldl_ext
    intro m f hf
    have hfo : frameOut numCh D gain buffer f ch = buffer (f * numCh + e0.1) * gain := by
      unfold frameOut
      rw [hsp]
      exact foldl_writeStep_last l1 l2 e0 _ happ hche h2
    rw [hfo]
  · push_neg at hw
    have hnone : ∀ e ∈ channelMapTake numCh, ¬((e.1 < numCh ∧ e.2 < D) ∧ e.2 = ch) :=
      fun e he hc => hw e he hc.1 hc.2
    unfold maxLevels
    rw [foldl_apply_comm (List.range nf)
          (fun ml frame => (channelMapTake numCh).foldl (mlStep numCh D gain buffer frame) ml)
          (fun m _ => m) ch
          (fun ml frame => foldl_mlStep_skip _ ml hnone)
          (fun _ => 0)]
    rw [foldl_const_acc]
    symm
    apply foldl_max_zero_list _ _ _ le_rfl
    intro f hf
    exact frameOut_unmapped hnone

theorem maxLevels_eq_specBlockPeak (numCh D nf fpb : Nat) (gain : Rat)
    (buffer : Nat → Rat) (ch : Nat) (hnf : nf ≤ fpb) :
    maxLevels numCh D nf gain buffer ch
      = specBlockPeak fpb
          (fun c f => if f < nf then frameOut numCh D gain buffer f c else 0) ch := by
  rw [specBlockPeak_truncate _ ch nf fpb hnf
        (fun f hf => by simp only [if_neg (Nat.not_lt.mpr hf)])]
  rw [maxLevels_eq_blockPeak_core numCh D nf gain buffer ch]
  apply List.foldl_ext
  intro m f hf
  rw [List.mem_range] at hf
  simp [hf]

/-
Claim theorems.
-/

/-- Claim C4: for every entry (f, o) in defaultChannelMap,
getInputChannel (getOutputChannel f) = f, given that the outputChannel values
occurring in the table are pairwise unique.  The first conjunct checks the
uniqueness premise on the table, the second the round trip for every entry. -/
theorem c4_roundtrip :
    (defaultChannelMap.map Prod.snd).Nodup
    ∧ ∀ e ∈ defaultChannelMap,
        getInputChannel (getOutputChannel (e.1 : Int)) = (e.1 : Int) := by
  decide

/-- Witness for claim C4, instantiating the round trip at the entry (0, 0). -/
theorem c4_roundtrip_witness :
    getInputChannel (getOutputChannel (((0, 0) : Nat × Nat).1 : Int))
      = (((0, 0) : Nat × Nat).1 : Int) :=
  c4_roundtrip.2 (0, 0) (by decide)

/-- Claim C9: getOutputChannel and getInputChannel are total functions over
integer inputs (total by construction in the embedding, mirroring the C++
loops that cannot throw): any fileChannel occurring in no entry of
defaultChannelMap is passed through unchanged, and any allosphereChannel that
is the output of no entry yields the sentinel -1. -/
theorem c9_lookup_defaults :
    (∀ x : Int, (∀ e ∈ defaultChannelMap, (e.1 : Int) ≠ x) → getOutputChannel x = x)
    ∧ (∀ y : Int, (∀ e ∈ defaultChannelMap, (e.2 : Int) ≠ y) → getInputChannel y = -1) := by
  constructor
  · intro x hx
    unfold getOutputChannel
    have hnone : defaultChannelMap.find? (fun m => (m.1 : Int) == x) = none := by
      rw [List.find?_eq_none]
      intro e he
      simpa using hx e he
    rw [hnone]
  · intro y hy
    unfold getInputChannel
    have hnone : defaultChannelMap.find? (fun m => (m.2 : Int) == y) = none := by
      rw [List.find?_eq_none]
      intro e he
      simpa using hy e he
    rw [hnone]

/-- Witness for claim C9: file channel 54 is unmapped and passes through;
output channel 13 is one of the skipped outputs and yields -1. -/
theorem c9_lookup_defaults_witness :
    getOutputChannel 54 = 54 ∧ getInputChannel 13 = -1 :=
  ⟨c9_lookup_defaults.1 54 (by decide), c9_lookup_defaults.2 13 (by decide)⟩

/-- Claim C10: the round-trip law fails at the public interface for the
unmapped file channel 54: no entry has fileChannel 54, so getOutputChannel 54
passes 54 through, but (48, 54) maps output 54, so the inverse returns 48,
not 54. -/
theorem c10_passthrough_collision :
    defaultChannelMap.all (fun e => (e.1 : Int) != 54) = true
    ∧ getOutputChannel 54 = 54
    ∧ (48, 54) ∈ defaultChannelMap
    ∧ getInputChannel (getOutputChannel 54) = 48
    ∧ (48 : Int) ≠ 54 := by
  decide


/-- Counterexample for claim C3 as stated: on a failed open, the playing flag
is not left untouched — it was true before the call and is false after
(loadAudioFile clears it before the open attempt and the early return skips
the restore). -/
theorem c3_counterexample :
    c3State.playing = true ∧ (loadAudioFile c3State none).2.playing = false :=
  ⟨rfl, rfl⟩

/-- Claim C3 as amended: when openRead fails, loadAudioFile returns false and
leaves every state component untouched — frameCounter, resident-chunk state,
meter arrays, the previously open asset — except the playing flag, which was
forced to false before the open attempt and is not restored on the failure
path. -/
theorem c3_failed_load_amended (s : PlayerState) :
    loadAudioFile s none = (false, { s with playing := false }) := rfl

/-- Witness for the amended claim C3 at the concrete mid-playback state. -/
theorem c3_failed_load_amended_witness :
    loadAudioFile c3State none = (false, { c3State with playing := false }) :=
  c3_failed_load_amended c3State


/-- Claim C6: with loop disabled and the cursor at frameCount, the next render
invocation sets playing to false and emits an all-zero buffer, and the
invocation after that (and hence, by this fixed-point equation, every
subsequent one) returns the identical all-zero output and the identical
state — cursor and playing unchanged. -/
theorem c6_end_of_stream_idempotent (s : PlayerState) (fpb D : Nat)
    (hopen : s.fileOpened = true) (hplay : s.playing = true)
    (hloop : s.loop = false) (hend : s.frameCounter = s.fileFrames) :
    onSound s fpb D = ({ s with playing := false }, fun _ _ => 0)
    ∧ onSound { s with playing := false } fpb D
        = ({ s with playing := false }, fun _ _ => 0) := by
  constructor
  · unfold onSound
    simp [hopen, hplay, hloop, hend]
  · unfold onSound
    simp [hopen]

/-- Witness for claim C6 at the concrete end-of-stream state. -/
theorem c6_end_of_stream_idempotent_witness :
    onSound c6State 512 60 = ({ c6State with playing := false }, fun _ _ => 0)
    ∧ onSound { c6State with playing := false } 512 60
        = ({ c6State with playing := false }, fun _ _ => 0) :=
  c6_end_of_stream_idempotent c6State 512 60 rfl rfl rfl rfl

/-- Claim C7: the meter level follows level = max(level * decayRate, blockPeak)
(first conjunct, equating the embedded update with the max rule); after a
block whose peak M registers (the decayed previous level does not exceed M),
K consecutive all-zero blocks leave the level at exactly M * decayRate^K in
the exact-arithmetic model (second conjunct); and the level never goes
negative from nonnegative inputs (third conjunct). -/
theorem c7_meter_decay_rule :
    (∀ level maxLevel : Rat,
        levelUpdate meterDecayRate level maxLevel = max (level * meterDecayRate) maxLevel)
    ∧ (∀ (l M : Rat) (K : Nat), 0 ≤ M → l * meterDecayRate ≤ M →
        (fun x => levelUpdate meterDecayRate x 0)^[K] (levelUpdate meterDecayRate l M)
          = M * meterDecayRate ^ K)
    ∧ (∀ level maxLevel : Rat, 0 ≤ level → 0 ≤ maxLevel →
        0 ≤ levelUpdate meterDecayRate level maxLevel) := by
  have hrate : (0 : Rat) ≤ meterDecayRate := by norm_num [meterDecayRate]
  have hmax : ∀ level maxLevel : Rat,
      levelUpdate meterDecayRate level maxLevel = max (level * meterDecayRate) maxLevel := by
    intro level maxLevel
    unfold levelUpdate
    rw [if_gt_eq_max]
  refine ⟨hmax, ?_, ?_⟩
  · intro l M K hM hlM
    have hbase : levelUpdate meterDecayRate l M = M := by
      rw [hmax, max_eq_right hlM]
    rw [hbase]
    induction K with
    | zero => simp
    | succ n ih =>
        rw [Function.iterate_succ_apply', ih, hmax]
        rw [max_eq_left (by positivity)]
        ring
  · intro level maxLevel hl hm
    rw [hmax]
    exact le_trans hm (le_max_right _ _)

/-- Witness for claim C7: the max rule at (1, 2), a 3-block decay of a unit
transient, and nonnegativity at (1, 1). -/
theorem c7_meter_decay_rule_witness :
    levelUpdate meterDecayRate 1 2 = max (1 * meterDecayRate) 2
    ∧ (fun x => levelUpdate meterDecayRate x 0)^[3] (levelUpdate meterDecayRate 1 1)
        = 1 * meterDecayRate ^ 3
    ∧ 0 ≤ levelUpdate meterDecayRate 1 1 :=
  ⟨c7_meter_decay_rule.1 1 2,
   c7_meter_decay_rule.2.1 1 1 3 (by norm_num) (by norm_num [meterDecayRate]),
   c7_meter_decay_rule.2.2 1 1 (by norm_num) (by norm_num)⟩

/-- Claim C2: for a valid cursor and a request of fpb frames with
frameCounter + fpb <= fileFrames, the rendered block determines all fpb x D
device samples: every device output channel that no in-bounds mapping entry
writes is zero on every produced frame (first conjunct, the zero-fill
invariant — no channel keeps a stale value), and every frame at or past the
produced range is zero on every channel (second conjunct). -/
theorem c2_zero_fill (s : PlayerState) (fpb D : Nat)
    (hopen : s.fileOpened = true) (hplay : s.playing = true)
    (hreq : s.frameCounter + fpb ≤ s.fileFrames) (hpos : 0 < fpb) :
    (∀ ch, ch < D →
      (∀ e ∈ channelMapTake s.numChannels,
        ¬((e.1 < s.numChannels ∧ e.2 < D) ∧ e.2 = ch)) →
      ∀ f, f < fpb → (onSound s fpb D).2 ch f = 0)
    ∧ (∀ ch f, fpb ≤ f → (onSound s fpb D).2 ch f = 0) := by
  have hfc : s.frameCounter < s.fileFrames := by omega
  rw [onSound_eq_renderBody s fpb D hopen hplay hfc, renderBody_snd]
  have hnum : numFramesClamped s fpb = fpb := by
    unfold numFramesClamped
    rw [if_neg (by omega)]
  constructor
  · intro ch hch hum f hf
    simp only []
    rw [hnum, if_pos hf]
    apply frameOut_unmapped
    rw [(chunkCheck_preserves s).1]
    exact hum
  · intro ch f hf
    simp only []
    rw [hnum, if_neg (by omega)]


/-- Witness for claim C2: device output channel 12 (one of the skipped
outputs, written by no mapping entry) is zero on frame 0 of a 512-frame
block, and frame 512 (past the produced range) is zero on channel 0. -/
theorem c2_zero_fill_witness :
    (onSound c2State 512 60).2 12 0 = 0 ∧ (onSound c2State 512 60).2 0 512 = 0 :=
  ⟨(c2_zero_fill c2State 512 60 rfl rfl (by decide) (by decide)).1 12 (by decide)
      (by decide) 0 (by decide),
   (c2_zero_fill c2State 512 60 rfl rfl (by decide) (by decide)).2 0 512 (by decide)⟩

/-- Counterexample for claim C5 as stated: the claim requires output-channel
keyed metering in BOTH render-callback variants, but the 54ChanPlayer variant
keys its maxLevels buffer by file channel.  With a unit sample on file channel
12 (routed to output channel 16 by the map, 54 file channels, 54 device
channels, one frame, unit gain), the value the 54ChanPlayer variant feeds to
meter index 16 is 0, while the block-peak magnitude of the samples written to
device output channel 16 is 1. -/
theorem c5_counterexample :
    maxLevelsByFileChannel 13 17 1 1 (fun i => if i = 12 then 1 else 0) 16
      ≠ specBlockPeak 1
          (fun c f => frameOut 13 17 1 (fun i => if i = 12 then 1 else 0) f c) 16 := by
  have hrange : List.range 1 = [0] := by decide
  have hsp : channelMapTake 13
      = [(0, 0), (1, 1), (2, 2), (3, 3), (4, 4), (5, 5), (6, 6), (7, 7),
         (8, 8), (9, 9), (10, 10), (11, 11)] ++ (12, 16) :: [] := by decide
  have hA : maxLevelsByFileChannel 13 17 1 1 (fun i => if i = 12 then 1 else 0) 16
      = 0 := by
    unfold maxLevelsByFileChannel
    rw [hrange, List.foldl_cons, List.foldl_nil]
    exact foldl_mlStepByFile_skip _ _ (by decide)
  have hout : frameOut 13 17 1 (fun i => if i = 12 then 1 else 0) 0 16 = 1 := by
    unfold frameOut
    rw [hsp]
    rw [foldl_writeStep_last _ _ (12, 16) _ (by decide) rfl (by decide)]
    norm_num
  have hB : specBlockPeak 1
      (fun c f => frameOut 13 17 1 (fun i => if i = 12 then 1 else 0) f c) 16 = 1 := by
    unfold specBlockPeak
    rw [hrange, List.foldl_cons, List.foldl_nil]
    simp only []
    rw [hout]
    norm_num
  rw [hA, hB]
  norm_num

/-- Claim C5 as amended: in the streaming adm_player variant, the block-peak
magnitude fed into the meter at index ch is the maximum absolute value, over
the emitted block, of the samples written to device output channel ch:
the new channelLevels[ch] is levelUpdate applied to the old level and exactly
that block peak.  (The 54ChanPlayer variant instead keys the block-peak
buffer by file channel; see the counterexample.) -/
theorem c5_meter_keyed_by_output_amended (s : PlayerState) (fpb D ch : Nat)
    (hopen : s.fileOpened = true) (hplay : s.playing = true)
    (hfc : s.frameCounter < s.fileFrames) (hch : ch < D) :
    (onSound s fpb D).1.channelLevels ch
      = levelUpdate meterDecayRate (s.channelLevels ch)
          (specBlockPeak fpb (onSound s fpb D).2 ch) := by
  rw [onSound_eq_renderBody s fpb D hopen hplay hfc]
  rw [renderBody_fst_channelLevels s fpb D ch hch, renderBody_snd]
  rw [(chunkCheck_preserves s).2.2.2.1]
  exact congrArg _ (maxLevels_eq_specBlockPeak (chunkCheck s).numChannels D
    (numFramesClamped s fpb) fpb (chunkCheck s).gain (renderBuffer (chunkCheck s)) ch
    (numFramesClamped_le s fpb))


/-- Witness for the amended claim C5 at a one-frame block on channel 0. -/
theorem c5_meter_keyed_by_output_amended_witness :
    (onSound c5State 1 1).1.channelLevels 0
      = levelUpdate meterDecayRate (c5State.channelLevels 0)
          (specBlockPeak 1 (onSound c5State 1 1).2 0) :=
  c5_meter_keyed_by_output_amended c5State 1 1 0 rfl rfl (by decide) (by decide)

/-- Claim C8: whenever the playback cursor lies outside the resident chunk
(stated via the resident-chunk invariant that loadAudioChunk itself
establishes), the render path loads the chunk starting at
floor(frameCounter / chunkSize) * chunkSize, clamps its length so that
chunkStart + chunkFrames never exceeds the file frame count, and updates
currentChunkStart and currentChunkFrames accordingly. -/
theorem c8_chunk_reload (s : PlayerState) (fpb D : Nat)
    (hopen : s.fileOpened = true) (hplay : s.playing = true)
    (hstream : s.streamingMode = true) (hcs : 0 < s.chunkSize)
    (hfc : s.frameCounter < s.fileFrames)
    (hinv1 : s.currentChunkStart ≤ s.fileFrames)
    (hinv2 : s.currentChunkFrames =
      (if s.currentChunkStart + s.chunkSize > s.fileFrames
       then s.fileFrames - s.currentChunkStart else s.chunkSize))
    (hout : ¬(s.currentChunkStart ≤ s.frameCounter ∧
              s.frameCounter < s.currentChunkStart + s.currentChunkFrames)) :
    (onSound s fpb D).1.currentChunkStart
        = s.frameCounter / s.chunkSize * s.chunkSize
    ∧ (onSound s fpb D).1.currentChunkFrames =
        (if s.frameCounter / s.chunkSize * s.chunkSize + s.chunkSize > s.fileFrames
         then s.fileFrames - s.frameCounter / s.chunkSize * s.chunkSize
         else s.chunkSize)
    ∧ (onSound s fpb D).1.currentChunkStart + (onSound s fpb D).1.currentChunkFrames
        ≤ s.fileFrames := by
  have hdm := Nat.div_add_mod s.frameCounter s.chunkSize
  rw [Nat.mul_comm] at hdm
  have hmod := Nat.mod_lt s.frameCounter hcs
  have hne : s.frameCounter / s.chunkSize * s.chunkSize ≠ s.currentChunkStart := by
    intro heq
    by_cases hcase : s.currentChunkStart + s.chunkSize > s.fileFrames
    · rw [if_pos hcase] at hinv2
      omega
    · rw [if_neg hcase] at hinv2
      omega
  have hcc : chunkCheck s = loadAudioChunk s (s.frameCounter / s.chunkSize * s.chunkSize) := by
    unfold chunkCheck
    rw [hstream]
    simp [hne]
  have hproj1 : (renderBody s fpb D).1.currentChunkStart = (chunkCheck s).currentChunkStart := rfl
  have hproj2 : (renderBody s fpb D).1.currentChunkFrames = (chunkCheck s).currentChunkFrames := rfl
  have hlc1 : (loadAudioChunk s (s.frameCounter / s.chunkSize * s.chunkSize)).currentChunkStart
      = s.frameCounter / s.chunkSize * s.chunkSize := by
    unfold loadAudioChunk
    rw [hstream]
    simp
  have hlc2 : (loadAudioChunk s (s.frameCounter / s.chunkSize * s.chunkSize)).currentChunkFrames
      = (if s.frameCounter / s.chunkSize * s.chunkSize + s.chunkSize > s.fileFrames
         then s.fileFrames - s.frameCounter / s.chunkSize * s.chunkSize
         else s.chunkSize) := by
    unfold loadAudioChunk
    rw [hstream]
    simp
  have h1 : (onSound s fpb D).1.currentChunkStart
      = s.frameCounter / s.chunkSize * s.chunkSize := by
    rw [onSound_eq_renderBody s fpb D hopen hplay hfc, hproj1, hcc, hlc1]
  have h2 : (onSound s fpb D).1.currentChunkFrames
      = (if s.frameCounter / s.chunkSize * s.chunkSize + s.chunkSize > s.fileFrames
         then s.fileFrames - s.frameCounter / s.chunkSize * s.chunkSize
         else s.chunkSize) := by
    rw [onSound_eq_renderBody s fpb D hopen hplay hfc, hproj2, hcc, hlc2]
  refine ⟨h1, h2, ?_⟩
  rw [h1, h2]
  have hq1 : s.frameCounter / s.chunkSize * s.chunkSize ≤ s.frameCounter :=
    Nat.div_mul_le_self _ _
  by_cases hcase : s.frameCounter / s.chunkSize * s.chunkSize + s.chunkSize > s.fileFrames
  · rw [if_pos hcase]
    omega
  · rw [if_neg hcase]
    omega


theorem c1_onSound_eq : onSound c1State 200 1 = renderBody c1State 200 1 :=
  onSound_eq_renderBody c1State 200 1 rfl rfl (by decide)

theorem frameOut_single_channel (gain : Rat) (buffer : Nat → Rat) (frame : Nat) :
    frameOut 1 1 gain buffer frame 0 = buffer (frame * 1 + 0) * gain := by
  unfold frameOut
  rw [show channelMapTake 1 = [] ++ (0, 0) :: [] from by decide]
  exact foldl_writeStep_last [] [] (0, 0) _ (by decide) rfl (by decide)

theorem c1_out_eq :
    (onSound c1State 200 1).2 = fun ch frame =>
      if frame < 100 then frameOut 1 1 1 (renderBuffer c1State) frame ch else 0 := by
  rw [c1_onSound_eq, renderBody_snd,
      show chunkCheck c1State = c1State from rfl,
      show numFramesClamped c1State 200 = 100 from rfl,
      show c1State.numChannels = 1 from rfl,
      show c1State.gain = 1 from rfl]

theorem c1_buf (i : Nat) :
    renderBuffer c1State i = ((900 + i : Nat) : Rat) + 1 := rfl

/-- Counterexample for claim C1 as stated: at the scenario of the claim
(loop enabled, frameCount 1000, cursor 900, request of 200 frames) the cursor
after one render invocation is 1000, not 100, and output frame 100 of the
block is 0 (zero-filled tail), not the file sample at position 0 (which
is 1) — the block does not wrap within the invocation. -/
theorem c1_counterexample :
    (onSound c1State 200 1).1.frameCounter = 1000
    ∧ (1000 : Nat) ≠ 100
    ∧ (onSound c1State 200 1).2 0 100 = 0
    ∧ c1State.fileFlat 0 = 1
    ∧ (0 : Rat) ≠ 1 := by
  refine ⟨rfl, by norm_num, ?_, ?_, by norm_num⟩
  · rw [c1_out_eq]
    simp only []
    rw [if_neg (by norm_num)]
  · show ((0 : Nat) : Rat) + 1 = 1
    norm_num

/-- Claim C1 as amended: at the scenario of the claim the invocation truncates the
block — its first 100 frames come from file positions 900..999, output frames
100..199 are zero-filled, and the cursor ends at 1000; the wrap happens at the
start of the NEXT invocation, which resets the cursor to 0 and sources its
200 frames from file positions 0..199, leaving the cursor at 200. -/
theorem c1_block_truncated_amended :
    (∀ f, f < 100 → (onSound c1State 200 1).2 0 f = ((900 + f : Nat) : Rat) + 1)
    ∧ (∀ f, 100 ≤ f → (onSound c1State 200 1).2 0 f = 0)
    ∧ (onSound c1State 200 1).1.frameCounter = 1000
    ∧ (∀ f, f < 200 →
        (onSound (onSound c1State 200 1).1 200 1).2 0 f = ((f : Nat) : Rat) + 1)
    ∧ (onSound (onSound c1State 200 1).1 200 1).1.frameCounter = 200 := by
  have hopen2 : (onSound c1State 200 1).1.fileOpened = true := rfl
  have hplay2 : (onSound c1State 200 1).1.playing = true := rfl
  have hloop2 : (onSound c1State 200 1).1.loop = true := rfl
  have hfc2 : (onSound c1State 200 1).1.frameCounter = 1000 := rfl
  have hff2 : (onSound c1State 200 1).1.fileFrames = 1000 := rfl
  have hsound2 : onSound ((onSound c1State 200 1).1) 200 1
      = renderBody { (onSound c1State 200 1).1 with frameCounter := 0 } 200 1 :=
    onSound_eq_wrap _ 200 1 hopen2 hplay2 hloop2 (by rw [hfc2, hff2])
  have hbuf2 : ∀ i, renderBuffer { (onSound c1State 200 1).1 with frameCounter := 0 } i
      = ((i : Nat) : Rat) + 1 := by
    intro i
    have h0 : renderBuffer { (onSound c1State 200 1).1 with frameCounter := 0 } i
        = (((0 - 0) * 1 + i : Nat) : Rat) + 1 := rfl
    rw [h0]
    push_cast
    try ring
  refine ⟨?_, ?_, rfl, ?_, ?_⟩
  · intro f hf
    rw [c1_out_eq]
    simp only []
    rw [if_pos hf, frameOut_single_channel, c1_buf]
    push_cast
    try ring
  · intro f hf
    rw [c1_out_eq]
    simp only []
    rw [if_neg (by omega)]
  · intro f hf
    rw [hsound2, renderBody_snd,
        show chunkCheck { (onSound c1State 200 1).1 with frameCounter := 0 }
          = { (onSound c1State 200 1).1 with frameCounter := 0 } from rfl,
        show numFramesClamped { (onSound c1State 200 1).1 with frameCounter := 0 } 200
          = 200 from rfl,
        show ({ (onSound c1State 200 1).1 with frameCounter := 0 } : PlayerState).numChannels
          = 1 from rfl,
        show ({ (onSound c1State 200 1).1 with frameCounter := 0 } : PlayerState).gain
          = 1 from rfl]
    simp only []
    rw [if_pos hf, frameOut_single_channel, hbuf2]
    push_cast
    try ring
  · rw [hsound2]
    rfl

/-- Witness for the amended claim C1: output frame 0 of the first block holds
the file sample at position 900, frame 150 is zero, and frame 5 of the second
block holds the file sample at position 5. -/
theorem c1_block_truncated_amended_witness :
    (onSound c1State 200 1).2 0 0 = ((900 + 0 : Nat) : Rat) + 1
    ∧ (onSound c1State 200 1).2 0 150 = 0
    ∧ (onSound (onSound c1State 200 1).1 200 1).2 0 5 = ((5 : Nat) : Rat) + 1 :=
  ⟨c1_block_truncated_amended.1 0 (by norm_num),
   c1_block_truncated_amended.2.1 150 (by norm_num),
   c1_block_truncated_amended.2.2.2.1 5 (by norm_num)⟩


/-- Witness for claim C8: at cursor 25 with 10-frame chunks the render path
loads the chunk starting at 20 with the full 10 frames, within the file. -/
theorem c8_chunk_reload_witness :
    (onSound c8State 4 2).1.currentChunkStart = 25 / 10 * 10
    ∧ (onSound c8State 4 2).1.currentChunkFrames =
        (if 25 / 10 * 10 + 10 > 100 then 100 - 25 / 10 * 10 else 10)
    ∧ (onSound c8State 4 2).1.currentChunkStart
        + (onSound c8State 4 2).1.currentChunkFrames ≤ 100 :=
  c8_chunk_reload c8State 4 2 rfl rfl rfl (by decide) (by decide) (by decide)
    (by decide) (by decide)

end AdmPlayer
